import Mathlib

/-!
Verification development for the EmergentDB TypeScript SDK
(`src/typescript/src/index.ts`): a shallow embedding of the SDK's
request/response contract layer — schema validation, namespace omission,
batch chunking, and HTTP error normalization — together with theorems
about the embedded definitions.

Modelling conventions:
* JSON values are modelled by the inductive `Json`.  JSON numbers are
  modelled as `Int`: every numeric field the claims touch is declared
  `z.number().int()` in the source, and no claim distinguishes integral
  from fractional values (vector components and scores are never
  inspected numerically).
* JavaScript string truthiness (a string is falsy exactly when empty) is
  modelled explicitly where the source relies on it: the namespace
  omission rule `namespace && namespace !== "default"`, and the error
  message fallback `data.error || ...`.
* JS object fields whose value is `undefined` are dropped by
  `JSON.stringify`, so optional fields of outgoing payloads are present
  in the modelled object exactly when the source value is defined.
* Fallible operations (a `zod`-style `schema.parse`, which throws on
  invalid input) are modelled with `Option`; the client methods that can
  throw before issuing a request are modelled with `Except`.
* `fetch` responses are modelled by their status code and decoded JSON
  body; `this.request` becomes a pure function of those.
-/

/-- JSON values (numbers modelled as integers, see the header comment). -/
inductive Json where
  | null : Json
  | bool (b : Bool) : Json
  | num (n : Int) : Json
  | str (s : String) : Json
  | arr (elems : List Json) : Json
  | obj (fields : List (String × Json)) : Json

/-- Field lookup in a JSON object's field list (first match wins; the
bodies the claims concern have distinct keys). -/
def lookupField : List (String × Json) → String → Option Json
  | [], _ => none
  | (k, v) :: rest, key => if k = key then some v else lookupField rest key

/-- Field read on a decoded JSON value as the zod-style validators use it
(and as an observation of the object payloads the client assembles): the
field for objects, nothing for any other shape.  This is not JS property
access — for that (which throws on a null base) see
`Json.propertyAccess`. -/
def Json.lookup : Json → String → Option Json
  | .obj fields, key => lookupField fields key
  | _, _ => none

/-- JavaScript property access `data.error` as the error path performs it
on the decoded body: a `TypeError` (modelled as `Except.error ()`) when
the base is JSON null, since `null` is not boxed; the field (or
`undefined`, here `none`) for objects; `undefined` for boxed primitives
(booleans, numbers, strings) and for arrays, which have no `error`
property. -/
def Json.propertyAccess : Json → String → Except Unit (Option Json)
  | .null, _ => .error ()
  | .obj fields, key => .ok (lookupField fields key)
  | _, _ => .ok none

/-- JavaScript truthiness of a decoded JSON value. -/
def Json.truthy : Json → Bool
  | .null => false
  | .bool b => b
  | .num n => n ≠ 0
  | .str s => s ≠ ""
  | .arr _ => true
  | .obj _ => true

/-- Read a JSON value as a boolean (`z.boolean()`). -/
def Json.asBool : Json → Option Bool
  | .bool b => some b
  | _ => none

/-- Read a JSON value as an integer (`z.number().int()`). -/
def Json.asInt : Json → Option Int
  | .num n => some n
  | _ => none

/-- Read a JSON value as a string (`z.string()`). -/
def Json.asString : Json → Option String
  | .str s => some s
  | _ => none

/-- Read a JSON value as an open string-keyed record
(`z.record(z.string(), z.any())`). -/
def Json.asRecord : Json → Option (List (String × Json))
  | .obj fields => some fields
  | _ => none

/-- Read a list of JSON values as integers (`z.array(z.number().int())`
elementwise). -/
def asIntList : List Json → Option (List Int)
  | [] => some []
  | j :: rest =>
    match j.asInt, asIntList rest with
    | some n, some ns => some (n :: ns)
    | _, _ => none

/-- Read a JSON value as an integer array. -/
def Json.asIntArray : Json → Option (List Int)
  | .arr elems => asIntList elems
  | _ => none

/-- Result type of `BatchInsertResultSchema` (source lines 34–41).  The
source field `namespace` is called `nspace` here because `namespace` is a
Lean keyword. -/
structure BatchInsertResult where
  success : Bool
  ids : List Int
  count : Int
  nspace : String
  new_count : Int
  upserted_count : Int

/-- `BatchInsertResultSchema.parse`: accepts exactly the bodies carrying
a boolean `success`, integer array `ids`, integers `count`, `new_count`,
`upserted_count`, and string `namespace`; extra fields pass through.  No
cross-field constraint is declared by the schema. -/
def parseBatchInsertResult (j : Json) : Option BatchInsertResult :=
  match j.lookup "success", j.lookup "ids", j.lookup "count",
        j.lookup "namespace", j.lookup "new_count", j.lookup "upserted_count" with
  | some sj, some ij, some cj, some nj, some ncj, some ucj =>
    match sj.asBool, ij.asIntArray, cj.asInt, nj.asString, ncj.asInt, ucj.asInt with
    | some s, some ids, some c, some ns, some nc, some uc =>
      some ⟨s, ids, c, ns, nc, uc⟩
    | _, _, _, _, _, _ => none
  | _, _, _, _, _, _ => none

/-- Result type of `SearchResultSchema` (source lines 44–48). -/
structure SearchResult where
  id : Int
  score : Int
  metadata : Option (List (String × Json))

/-- `SearchResultSchema.parse`: integer `id`, numeric `score`, optional
record `metadata`. -/
def parseSearchResult (j : Json) : Option SearchResult :=
  match j.lookup "id", j.lookup "score" with
  | some ij, some sj =>
    match ij.asInt, sj.asInt with
    | some id, some score =>
      match j.lookup "metadata" with
      | none => some ⟨id, score, none⟩
      | some mj =>
        match mj.asRecord with
        | some m => some ⟨id, score, some m⟩
        | none => none
    | _, _ => none
  | _, _ => none

/-- Elementwise parsing of `z.array(SearchResultSchema)`. -/
def parseSearchResults : List Json → Option (List SearchResult)
  | [] => some []
  | j :: rest =>
    match parseSearchResult j, parseSearchResults rest with
    | some r, some rs => some (r :: rs)
    | _, _ => none

/-- Result type of `SearchResponseSchema` (source lines 51–55). -/
structure SearchResponse where
  results : List SearchResult
  count : Int
  nspace : String

/-- `SearchResponseSchema.parse`: `results` must be an array of search
results and `count` an integer; `namespace` is declared
`z.string().default("default")`, so an absent `namespace` field is filled
with the string `"default"` while a present non-string one is rejected. -/
def parseSearchResponse (j : Json) : Option SearchResponse :=
  match j.lookup "results", j.lookup "count" with
  | some (.arr elems), some (.num count) =>
    match parseSearchResults elems with
    | some results =>
      match j.lookup "namespace" with
      | none => some ⟨results, count, "default"⟩
      | some (.str s) => some ⟨results, count, s⟩
      | some _ => none
    | none => none
  | _, _ => none

/-- An outgoing HTTP request as assembled by a client method: method,
path, and JSON payload. -/
structure Request where
  method : String
  path : String
  payload : Json

/-- The `Response.ok` test of `fetch`: status in the inclusive range
200–299. -/
def httpOk (status : Nat) : Bool := 200 ≤ status && status ≤ 299

/-- Outcome of `EmergentDB.request` (source lines 197–227) on a decoded
response: a normalized `EmergentDBError` for non-success statuses
(carrying message, status, and body); an unnormalized `TypeError` crash
when the non-success path reads `data.error` on a JSON-null body; a
schema-validation failure (the `ZodError` thrown by `schema.parse`) for
success statuses whose body fails validation; or the parsed value. -/
inductive RequestOutcome (T : Type) where
  | httpError (message : Json) (status : Nat) (body : Json) : RequestOutcome T
  | malformed (body : Json) : RequestOutcome T
  | typeError : RequestOutcome T
  | ok (value : T) : RequestOutcome T

/-- The normalized error message, source expression
`data.error || backtick-HTTP $(resp.status)-backtick`, given the accessed
`error` field: the field when present and truthy, else the generic
string.  The value is the one passed to the `EmergentDBError`
constructor, before JS string coercion (which is the identity on
strings). -/
def errorMessage (e : Option Json) (status : Nat) : Json :=
  match e with
  | some v => if v.truthy then v else .str ("HTTP " ++ toString status)
  | none => .str ("HTTP " ++ toString status)

/-- `EmergentDB.request`, as a function of the response's status and
decoded body: a non-success status reads `data.error` from the body —
crashing with an unnormalized `TypeError` when the body is JSON null —
and raises the normalized error before any schema validation; success
statuses run `schema.parse` and either raise its validation error or
return the parsed value. -/
def request {T : Type} (parse : Json → Option T) (status : Nat) (body : Json) :
    RequestOutcome T :=
  if httpOk status then
    match parse body with
    | some v => .ok v
    | none => .malformed body
  else
    match body.propertyAccess "error" with
    | .error _ => .typeError
    | .ok e => .httpError (errorMessage e status) status body

/-- The namespace omission rule shared by the insert, batchInsert, search
and delete payloads, source expression
`...(namespace && namespace !== "default" ? ... : ...)`: the field is
spread in exactly when the argument is defined, truthy (non-empty), and
not the literal `"default"`. -/
def namespaceFields (nspace : Option String) : List (String × Json) :=
  match nspace with
  | some s => if s ≠ "" ∧ s ≠ "default" then [("namespace", .str s)] else []
  | none => []

/-- A vector entry of `id`, `vector` and optional `metadata` (source
`VectorEntry`). -/
structure VectorEntry where
  id : Int
  vector : List Int
  metadata : Option Json

/-- JSON serialization of one vector entry (a `metadata` of `undefined`
is dropped by `JSON.stringify`). -/
def vectorEntryJson (e : VectorEntry) : Json :=
  .obj ([("id", .num e.id), ("vector", .arr (e.vector.map Json.num))]
    ++ (match e.metadata with | some m => [("metadata", m)] | none => []))

/-- Payload of `EmergentDB.insert` (source lines 243–248). -/
def insertPayload (id : Int) (vector : List Int) (metadata : Option Json)
    (nspace : Option String) : Json :=
  .obj ([("id", .num id), ("vector", .arr (vector.map Json.num))]
    ++ (match metadata with | some m => [("metadata", m)] | none => [])
    ++ namespaceFields nspace)

/-- Payload of `EmergentDB.batchInsert` (source lines 269–272). -/
def batchInsertPayload (vectors : List VectorEntry) (nspace : Option String) : Json :=
  .obj (("vectors", .arr (vectors.map vectorEntryJson)) :: namespaceFields nspace)

/-- `EmergentDB.batchInsert` up to the point of issuing its request
(source lines 257–274): the oversize check `vectors.length > 1000` throws
a plain `Error` before any network call; otherwise the request is
assembled and issued. -/
def batchInsertAction (vectors : List VectorEntry) (nspace : Option String) :
    Except String Request :=
  if vectors.length > 1000 then
    .error "Batch insert supports max 1000 vectors per request"
  else
    .ok ⟨"POST", "/vectors/batch_insert", batchInsertPayload vectors nspace⟩

/-- The `SearchOptions` argument of `EmergentDB.search`.  Field `nspace`
models the source field `namespace`. -/
structure SearchOptions where
  k : Option Int
  includeMetadata : Option Bool
  nspace : Option String

/-- `SearchOptionsSchema` (source lines 151–155) as a validity predicate:
`k` must be a positive integer at most 100, `namespace` at most 64
characters; each constraint applies only when the field is present.  The
source defines and exports this schema but `EmergentDB.search` never
invokes it at runtime. -/
def searchOptionsValid (o : SearchOptions) : Bool :=
  (match o.k with
   | some k => 0 < k && k ≤ 100
   | none => true)
  && (match o.nspace with
      | some s => s.length ≤ 64
      | none => true)

/-- Payload of `EmergentDB.search` (source lines 323–330): `k` defaults
to 10, `include_metadata` to false, and the namespace rule is applied to
the optional `options.namespace`. -/
def searchPayload (vector : List Int) (options : Option SearchOptions) : Json :=
  .obj ([("vector", .arr (vector.map Json.num)),
         ("k", .num ((Option.bind options SearchOptions.k).getD 10)),
         ("include_metadata",
          .bool ((Option.bind options SearchOptions.includeMetadata).getD false))]
    ++ namespaceFields (Option.bind options SearchOptions.nspace))

/-- `EmergentDB.search` up to the point of issuing its request (source
lines 319–331).  The method body performs no client-side validation of
`options` — `SearchOptionsSchema` is never applied — so the action always
assembles and issues the request. -/
def searchAction (vector : List Int) (options : Option SearchOptions) :
    Except String Request :=
  .ok ⟨"POST", "/vectors/search", searchPayload vector options⟩

/-- Payload of `EmergentDB.delete` (source lines 340–343). -/
def deletePayload (id : Int) (nspace : Option String) : Json :=
  .obj (("id", .num id) :: namespaceFields nspace)

/-- Aggregate result of `EmergentDB.batchInsertAll` (source lines
283–311). -/
structure AggregateResult where
  ids : List Int
  count : Int
  new_count : Int
  upserted_count : Int

/-- The chunking loop of `batchInsertAll`, source
`for (let i = 0; i < vectors.length; i += BATCH_SIZE)` with
`chunk = vectors.slice(i, i + BATCH_SIZE)` and `BATCH_SIZE = 1000`, as
structural recursion: each step takes the next up to 1000 entries.  The
`fuel` argument is an upper bound on the number of remaining entries
(each step consumes at least one), supplied as the input length by
`chunks1000`. -/
def sliceChunks : Nat → List VectorEntry → List (List VectorEntry)
  | _, [] => []
  | 0, _ :: _ => []
  | fuel + 1, x :: xs =>
    (x :: xs).take 1000 :: sliceChunks fuel ((x :: xs).drop 1000)

/-- The contiguous, order-preserving chunks of at most 1000 entries that
`batchInsertAll` iterates over. -/
def chunks1000 (vectors : List VectorEntry) : List (List VectorEntry) :=
  sliceChunks vectors.length vectors

/-- The accumulation loop of `batchInsertAll`: `i` is the chunk index,
`allIds`, `totalNew`, `totalUpserted` the accumulators, and `server` the
outcome of `this.batchInsert(chunk, namespace)` for the i-th issued chunk
(an `Except` because the awaited call may throw).  Returns the list of
chunks for which a request was issued, paired with the outcome: on the
first failing chunk the loop aborts, propagating that chunk's error
unchanged; on completion it returns the aggregate whose `ids` is the
accumulated `allIds`, whose `count` is `allIds.length`, and whose
`new_count` and `upserted_count` are the accumulated totals. -/
def batchInsertAllGo {E : Type} (server : Nat → List VectorEntry → Except E BatchInsertResult) :
    Nat → List Int → Int → Int → List (List VectorEntry) →
    List (List VectorEntry) × Except E AggregateResult
  | _, allIds, totalNew, totalUpserted, [] =>
    ([], .ok ⟨allIds, allIds.length, totalNew, totalUpserted⟩)
  | i, allIds, totalNew, totalUpserted, chunk :: rest =>
    match server i chunk with
    | .error e => ([chunk], .error e)
    | .ok result =>
      let next := batchInsertAllGo server (i + 1) (allIds ++ result.ids)
        (totalNew + result.new_count) (totalUpserted + result.upserted_count) rest
      (chunk :: next.1, next.2)

/-- `EmergentDB.batchInsertAll` (source lines 283–311), parametrized by
the per-chunk outcome of `this.batchInsert`. -/
def batchInsertAll {E : Type} (server : Nat → List VectorEntry → Except E BatchInsertResult)
    (vectors : List VectorEntry) :
    List (List VectorEntry) × Except E AggregateResult :=
  batchInsertAllGo server 0 [] 0 0 (chunks1000 vectors)

/-- The sequence of chunk responses a never-failing server produces for a
chunk list, starting at chunk index `i`. -/
def chunkResponsesFrom (server : Nat → List VectorEntry → BatchInsertResult) (i : Nat) :
    List (List VectorEntry) → List BatchInsertResult
  | [] => []
  | c :: rest => server i c :: chunkResponsesFrom server (i + 1) rest

/-! Helper lemmas about the chunking loop. -/

/-- Chunking an empty input yields no chunks, for any fuel. -/
theorem sliceChunks_nil (fuel : Nat) : sliceChunks fuel [] = [] := by
  cases fuel <;> rfl

/-- One unfolding step of the chunking loop on a nonempty input. -/
theorem sliceChunks_step (fuel : Nat) (xs : List VectorEntry) (h : xs ≠ []) :
    sliceChunks (fuel + 1) xs = xs.take 1000 :: sliceChunks fuel (xs.drop 1000) := by
  cases xs with
  | nil => exact absurd rfl h
  | cons x xs => rfl

/-- A replicated list of positive length is nonempty. -/
theorem replicate_entry_ne_nil (n : Nat) (h : 0 < n) (e : VectorEntry) :
    List.replicate n e ≠ [] :=
  List.ne_nil_of_length_pos (by rw [List.length_replicate]; exact h)

/-- With sufficient fuel, concatenating the chunks restores the input:
chunking is a contiguous, order-preserving partition. -/
theorem sliceChunks_flatten (fuel : Nat) :
    ∀ xs : List VectorEntry, xs.length ≤ fuel → (sliceChunks fuel xs).flatten = xs := by
  induction fuel with
  | zero =>
    intro xs h
    have hx : xs = [] := List.eq_nil_of_length_eq_zero (Nat.le_zero.mp h)
    subst hx; rfl
  | succ n ih =>
    intro xs h
    cases xs with
    | nil => rfl
    | cons x rest =>
      simp only [sliceChunks, List.flatten_cons]
      rw [ih ((x :: rest).drop 1000) (by simp [List.length_drop] at *; omega)]
      exact List.take_append_drop 1000 (x :: rest)

/-- Every chunk produced by the chunking loop has at most 1000 entries. -/
theorem sliceChunks_length_le (fuel : Nat) :
    ∀ (xs : List VectorEntry) (c : List VectorEntry),
      c ∈ sliceChunks fuel xs → c.length ≤ 1000 := by
  induction fuel with
  | zero =>
    intro xs c hc
    cases xs with
    | nil => simp [sliceChunks] at hc
    | cons x rest => simp [sliceChunks] at hc
  | succ n ih =>
    intro xs c hc
    cases xs with
    | nil => simp [sliceChunks] at hc
    | cons x rest =>
      simp only [sliceChunks, List.mem_cons] at hc
      cases hc with
      | inl h => subst h; rw [List.length_take]; exact Nat.min_le_left _ _
      | inr h => exact ih _ _ h

/-- Running the accumulation loop against a server that answers every
chunk: one request is issued per chunk in order, ids are accumulated by
concatenation, the final count is the length of the accumulated ids, and
the totals are accumulated by summation. -/
theorem batchInsertAllGo_ok {E : Type} (server : Nat → List VectorEntry → BatchInsertResult) :
    ∀ (cs : List (List VectorEntry)) (i : Nat) (allIds : List Int) (tn tu : Int),
    batchInsertAllGo (fun j c => (Except.ok (server j c) : Except E BatchInsertResult))
        i allIds tn tu cs =
      (cs, Except.ok
        ⟨allIds ++ ((chunkResponsesFrom server i cs).map BatchInsertResult.ids).flatten,
         (allIds ++ ((chunkResponsesFrom server i cs).map BatchInsertResult.ids).flatten).length,
         tn + ((chunkResponsesFrom server i cs).map BatchInsertResult.new_count).sum,
         tu + ((chunkResponsesFrom server i cs).map BatchInsertResult.upserted_count).sum⟩) := by
  intro cs
  induction cs with
  | nil =>
    intro i allIds tn tu
    simp [batchInsertAllGo, chunkResponsesFrom]
  | cons c rest ih =>
    intro i allIds tn tu
    simp only [batchInsertAllGo, chunkResponsesFrom, List.map_cons, List.flatten_cons,
      List.sum_cons]
    rw [ih]
    simp [List.append_assoc, add_assoc]

/-- If the server fails on the chunk at index `k` after answering every
earlier chunk, the accumulation loop issues requests for the chunks up to
and including `k` only, and returns that chunk's error unchanged. -/
theorem batchInsertAllGo_fail {E : Type}
    (server : Nat → List VectorEntry → Except E BatchInsertResult) :
    ∀ (cs : List (List VectorEntry)) (k i : Nat) (allIds : List Int) (tn tu : Int) (e : E),
      k < cs.length →
      server (i + k) (cs.getD k []) = .error e →
      (∀ j, j < k → ∃ r, server (i + j) (cs.getD j []) = .ok r) →
      batchInsertAllGo server i allIds tn tu cs = (cs.take (k + 1), .error e) := by
  intro cs
  induction cs with
  | nil => intro k i allIds tn tu e hk; exact absurd hk (by simp)
  | cons c rest ih =>
    intro k i allIds tn tu e hk herr hok
    cases k with
    | zero =>
      simp only [List.getD_cons_zero, Nat.add_zero] at herr
      simp [batchInsertAllGo, herr]
    | succ k' =>
      obtain ⟨r, hr⟩ := hok 0 (Nat.succ_pos k')
      simp only [List.getD_cons_zero, Nat.add_zero] at hr
      simp only [batchInsertAllGo, hr]
      rw [ih k' (i + 1) (allIds ++ r.ids) (tn + r.new_count) (tu + r.upserted_count) e
        (Nat.lt_of_succ_lt_succ (by simpa using hk))
        (by rw [show i + 1 + k' = i + (k' + 1) from by omega]
            simpa [List.getD_cons_succ] using herr)
        (fun j hj => by
          obtain ⟨r', hr'⟩ := hok (j + 1) (Nat.succ_lt_succ hj)
          exact ⟨r', by rw [show i + 1 + j = i + (j + 1) from by omega]
                        simpa [List.getD_cons_succ] using hr'⟩)]
      simp [List.take_cons]

/-- Whenever the accumulation loop completes with an aggregate, that
aggregate's count is the length of its ids, by construction
(`count: allIds.length` in the source). -/
theorem batchInsertAllGo_ok_count {E : Type}
    (server : Nat → List VectorEntry → Except E BatchInsertResult) :
    ∀ (cs : List (List VectorEntry)) (i : Nat) (allIds : List Int) (tn tu : Int)
      (reqs : List (List VectorEntry)) (r : AggregateResult),
      batchInsertAllGo server i allIds tn tu cs = (reqs, .ok r) →
      r.count = r.ids.length := by
  intro cs
  induction cs with
  | nil =>
    intro i allIds tn tu reqs r h
    simp only [batchInsertAllGo, Prod.mk.injEq, Except.ok.injEq] at h
    rw [← h.2]
  | cons c rest ih =>
    intro i allIds tn tu reqs r h
    simp only [batchInsertAllGo] at h
    cases hs : server i c with
    | error e => rw [hs] at h; simp at h
    | ok res =>
      rw [hs] at h
      simp only [Prod.mk.injEq] at h
      exact ih (i + 1) (allIds ++ res.ids) (tn + res.new_count) (tu + res.upserted_count)
        _ r (by rw [Prod.mk.injEq]; exact ⟨rfl, h.2⟩)

/-- On every body other than JSON null, property access agrees with the
plain field read: only a null base makes `data.error` throw. -/
theorem propertyAccess_of_ne_null (body : Json) (h : body ≠ Json.null) (key : String) :
    body.propertyAccess key = .ok (body.lookup key) := by
  cases body with
  | null => exact absurd rfl h
  | bool b => rfl
  | num n => rfl
  | str s => rfl
  | arr elems => rfl
  | obj fields => rfl

/-- The namespace rule on a defined argument, written as a single
equation. -/
theorem namespaceFields_some (s : String) :
    namespaceFields (some s) =
      if s = "" ∨ s = "default" then [] else [("namespace", Json.str s)] := by
  by_cases h : s = "" ∨ s = "default"
  · rw [if_pos h]
    simp only [namespaceFields]
    rw [if_neg (by tauto)]
  · rw [if_neg h]
    simp only [namespaceFields]
    rw [if_pos (by tauto)]

/-! Claim C1: chunked aggregation of `batchInsertAll`. -/

def c1entry : VectorEntry := ⟨1, [0], none⟩

def c1response : BatchInsertResult := ⟨true, [1], 5, "default", 0, 0⟩

def c1server : Nat → List VectorEntry → Except Unit BatchInsertResult :=
  fun _ _ => .ok c1response

def c1serverOk : Nat → List VectorEntry → BatchInsertResult :=
  fun _ _ => c1response

def c1aggregate : AggregateResult := ⟨[1], 1, 0, 0⟩

/-- Claim C1, counterexample: for a single-chunk input whose chunk
response reports `count = 5` but carries one id, the aggregate returned
by `batchInsertAll` has `count = 1` (the length of the concatenated ids),
not the sum 5 of the chunk results' `count` fields, refuting the claim's
"count is the sum of chunk counts" at this input. -/
theorem batchInsertAll_count_counterexample :
    (batchInsertAll c1server [c1entry]).2 = Except.ok c1aggregate
    ∧ ((chunkResponsesFrom c1serverOk 0 (chunks1000 [c1entry])).map
        BatchInsertResult.count).sum = 5
    ∧ c1aggregate.count ≠ ((chunkResponsesFrom c1serverOk 0 (chunks1000 [c1entry])).map
        BatchInsertResult.count).sum :=
  ⟨rfl, rfl, by decide⟩

/-- Claim C1 (amended): `batchInsertAll` partitions the input into
contiguous, order-preserving chunks of at most 1000 entries
(concatenating the chunks restores the input), issues one batch-insert
request per chunk in order, and aggregates: `ids` by in-order
concatenation of the chunk results' ids, `new_count` and `upserted_count`
by summation of the corresponding fields, and `count` as the length of
the aggregated `ids` (not the sum of the chunk results' `count` fields);
for an input of exactly 2500 entries the chunks have sizes 1000, 1000,
500. -/
theorem batchInsertAll_chunked_aggregation
    (server : Nat → List VectorEntry → BatchInsertResult) (vectors : List VectorEntry)
    (e : VectorEntry) :
    batchInsertAll (fun j c => (Except.ok (server j c) : Except Unit BatchInsertResult))
        vectors =
      (chunks1000 vectors,
       Except.ok
         ⟨((chunkResponsesFrom server 0 (chunks1000 vectors)).map
             BatchInsertResult.ids).flatten,
          (((chunkResponsesFrom server 0 (chunks1000 vectors)).map
             BatchInsertResult.ids).flatten).length,
          ((chunkResponsesFrom server 0 (chunks1000 vectors)).map
             BatchInsertResult.new_count).sum,
          ((chunkResponsesFrom server 0 (chunks1000 vectors)).map
             BatchInsertResult.upserted_count).sum⟩)
    ∧ (chunks1000 vectors).flatten = vectors
    ∧ (chunks1000 vectors).all (fun c => decide (c.length ≤ 1000)) = true
    ∧ (chunks1000 (List.replicate 2500 e)).map List.length = [1000, 1000, 500] := by
  refine ⟨?_, ?_, ?_, ?_⟩
  · rw [batchInsertAll, batchInsertAllGo_ok]
    simp
  · exact sliceChunks_flatten _ _ le_rfl
  · exact List.all_eq_true.mpr fun c hc => by
      simpa using sliceChunks_length_le _ _ _ hc
  · rw [chunks1000, List.length_replicate]
    rw [show (2500 : Nat) = 2499 + 1 from rfl,
        sliceChunks_step _ _ (replicate_entry_ne_nil 2500 (by norm_num) e),
        List.take_replicate, List.drop_replicate,
        show (1000 : Nat) ⊓ 2500 = 1000 from rfl,
        show (2500 : Nat) - 1000 = 1500 from rfl]
    rw [show (2499 : Nat) = 2498 + 1 from rfl,
        sliceChunks_step _ _ (replicate_entry_ne_nil 1500 (by norm_num) e),
        List.take_replicate, List.drop_replicate,
        show (1000 : Nat) ⊓ 1500 = 1000 from rfl,
        show (1500 : Nat) - 1000 = 500 from rfl]
    rw [show (2498 : Nat) = 2497 + 1 from rfl,
        sliceChunks_step _ _ (replicate_entry_ne_nil 500 (by norm_num) e),
        List.take_replicate, List.drop_replicate,
        show (1000 : Nat) ⊓ 500 = 500 from rfl,
        show (500 : Nat) - 1000 = 0 from rfl,
        List.replicate_zero, sliceChunks_nil]
    rw [List.map_cons, List.map_cons, List.map_cons, List.map_nil]
    rw [List.length_replicate, List.length_replicate]

/-! Claim C2: the namespace omission rule. -/

/-- Claim C2, counterexample: the empty string is a namespace argument
different from `"default"`, yet every one of the four operations omits
the `namespace` field from its payload (JS truthiness makes the guard
`namespace && namespace !== "default"` false), refuting "for every other
namespace string, including the empty string, the field is included". -/
theorem namespace_empty_string_counterexample :
    ("" : String) ≠ "default"
    ∧ (insertPayload 1 [0] none (some "")).lookup "namespace" = none
    ∧ (batchInsertPayload [] (some "")).lookup "namespace" = none
    ∧ (searchPayload [0] (some ⟨none, none, some ""⟩)).lookup "namespace" = none
    ∧ (deletePayload 1 (some "")).lookup "namespace" = none :=
  ⟨by decide, rfl, rfl, rfl, rfl⟩

/-- Claim C2 (amended): uniformly for insert, batchInsert, search and
delete, the outgoing payload omits the `namespace` field when the
argument is absent, the empty string, or equal to `"default"`, and
includes it verbatim for every other namespace string. -/
theorem namespace_omission_uniform_rule
    (s : String) (id : Int) (vector : List Int) (metadata : Option Json)
    (vectors : List VectorEntry) (k : Option Int) (im : Option Bool) :
    ((insertPayload id vector metadata (some s)).lookup "namespace" =
        (if s = "" ∨ s = "default" then none else some (Json.str s))
      ∧ (insertPayload id vector metadata none).lookup "namespace" = none)
    ∧ ((batchInsertPayload vectors (some s)).lookup "namespace" =
        (if s = "" ∨ s = "default" then none else some (Json.str s))
      ∧ (batchInsertPayload vectors none).lookup "namespace" = none)
    ∧ ((searchPayload vector (some ⟨k, im, some s⟩)).lookup "namespace" =
        (if s = "" ∨ s = "default" then none else some (Json.str s))
      ∧ (searchPayload vector (some ⟨k, im, none⟩)).lookup "namespace" = none
      ∧ (searchPayload vector none).lookup "namespace" = none)
    ∧ ((deletePayload id (some s)).lookup "namespace" =
        (if s = "" ∨ s = "default" then none else some (Json.str s))
      ∧ (deletePayload id none).lookup "namespace" = none) := by
  refine ⟨⟨?_, ?_⟩, ⟨?_, ?_⟩, ⟨?_, ?_, ?_⟩, ⟨?_, ?_⟩⟩
  · cases metadata <;>
      · simp only [insertPayload, namespaceFields_some, Json.lookup]
        by_cases h : s = "" ∨ s = "default" <;> simp [h, lookupField]
  · cases metadata <;>
      · simp only [insertPayload, namespaceFields, Json.lookup]
        simp [lookupField]
  · simp only [batchInsertPayload, namespaceFields_some, Json.lookup]
    by_cases h : s = "" ∨ s = "default" <;> simp [h, lookupField]
  · simp only [batchInsertPayload, namespaceFields, Json.lookup]
    simp [lookupField]
  · simp only [searchPayload, namespaceFields_some, Json.lookup, Option.bind]
    by_cases h : s = "" ∨ s = "default" <;> simp [h, lookupField]
  · simp only [searchPayload, namespaceFields, Json.lookup, Option.bind]
    simp [lookupField]
  · simp only [searchPayload, namespaceFields, Json.lookup, Option.bind]
    simp [lookupField]
  · simp only [deletePayload, namespaceFields_some, Json.lookup]
    by_cases h : s = "" ∨ s = "default" <;> simp [h, lookupField]
  · simp only [deletePayload, namespaceFields, Json.lookup]
    simp [lookupField]

/-! Claim C3: the batch-insert response invariant. -/

def c3body : Json :=
  .obj [("success", .bool true), ("ids", .arr [.num 1]), ("count", .num 5),
        ("namespace", .str "default"), ("new_count", .num 0), ("upserted_count", .num 0)]

def c3result : BatchInsertResult := ⟨true, [1], 5, "default", 0, 0⟩

/-- Claim C3, counterexample: a response body with `count = 5`, a single
id, and `new_count = upserted_count = 0` passes
`BatchInsertResultSchema` validation and is returned to the caller, yet
violates both equalities of the claimed invariant
`count == new_count + upserted_count == length(ids)`. -/
theorem batchInsert_schema_accepts_violation :
    parseBatchInsertResult c3body = some c3result
    ∧ c3result.count ≠ c3result.new_count + c3result.upserted_count
    ∧ c3result.count ≠ (c3result.ids.length : Int) :=
  ⟨rfl, by decide, by decide⟩

/-- Claim C3 (amended): batch-insert response validation checks field
presence and types only and does not enforce the numeric invariant —
there exists an accepted response violating
`count == new_count + upserted_count == length(ids)`.  The invariant
`count == length(ids)` does hold, by construction, for the aggregate that
`batchInsertAll` itself computes from accepted chunk responses. -/
theorem batchInsert_invariant_not_enforced :
    (∃ (j : Json) (r : BatchInsertResult),
        parseBatchInsertResult j = some r
        ∧ r.count ≠ r.new_count + r.upserted_count
        ∧ r.count ≠ (r.ids.length : Int))
    ∧ (∀ (E : Type) (server : Nat → List VectorEntry → Except E BatchInsertResult)
        (vectors : List VectorEntry) (reqs : List (List VectorEntry)) (r : AggregateResult),
        batchInsertAll server vectors = (reqs, .ok r) →
        r.count = (r.ids.length : Int)) := by
  constructor
  · exact ⟨c3body, c3result, rfl, by decide, by decide⟩
  · intro E server vectors reqs r h
    exact batchInsertAllGo_ok_count server (chunks1000 vectors) 0 [] 0 0 reqs r h

def w3server : Nat → List VectorEntry → Except Unit BatchInsertResult :=
  fun _ _ => .ok ⟨true, [7], 1, "default", 1, 0⟩

/-- Witness for claim C3's amended theorem, instantiating its second
conjunct at a concrete one-chunk run. -/
theorem batchInsert_invariant_not_enforced_witness :
    (⟨[7], 1, 1, 0⟩ : AggregateResult).count =
      ((⟨[7], 1, 1, 0⟩ : AggregateResult).ids.length : Int) :=
  batchInsert_invariant_not_enforced.2 Unit w3server [⟨1, [0], none⟩]
    [[⟨1, [0], none⟩]] ⟨[7], 1, 1, 0⟩ rfl

/-! Claim C4: search input constraints. -/

def c4options : SearchOptions := ⟨some 500, none, none⟩

/-- Claim C4, counterexample: for `k = 500` — outside the declared range
1..100, as witnessed by `searchOptionsValid` — `search` raises no
client-side validation error: it assembles and issues the request, whose
payload carries `k = 500` verbatim. -/
theorem search_out_of_range_k_sent :
    searchOptionsValid c4options = false
    ∧ searchAction [1] (some c4options) =
        .ok ⟨"POST", "/vectors/search", searchPayload [1] (some c4options)⟩
    ∧ (searchPayload [1] (some c4options)).lookup "k" = some (.num 500) :=
  ⟨rfl, rfl, rfl⟩

/-- Claim C4 (amended): `SearchOptionsSchema` declares `k` in 1..100 and
namespace length at most 64 and, as a schema, rejects values outside
those ranges; but `search` never applies it at runtime, so for every
options value the client issues the request (with out-of-range values
passed through) instead of raising a validation error. -/
theorem search_options_schema_unenforced :
    (∀ (vector : List Int) (options : Option SearchOptions),
        searchAction vector options =
          .ok ⟨"POST", "/vectors/search", searchPayload vector options⟩)
    ∧ (∀ o : SearchOptions,
        searchOptionsValid o =
          (Option.all (fun k => decide (0 < k) && decide (k ≤ 100)) o.k
            && Option.all (fun s => decide (s.length ≤ 64)) o.nspace))
    ∧ searchOptionsValid ⟨some 500, none, none⟩ = false
    ∧ searchOptionsValid ⟨some 0, none, none⟩ = false
    ∧ searchOptionsValid ⟨none, none, some (String.mk (List.replicate 65 'a'))⟩ = false
    ∧ searchOptionsValid ⟨some 10, some true, some "production"⟩ = true := by
  refine ⟨fun _ _ => rfl, ?_, rfl, rfl, rfl, rfl⟩
  intro o
  obtain ⟨k, im, ns⟩ := o
  cases k <;> cases ns <;> rfl

/-! Claim C5: HTTP error normalization. -/

def c5body : Json := .obj [("error", .str "")]

/-- Claim C5, counterexample: for a 500 response whose body carries a
present but empty `error` field, the normalized error's message is the
generic `"HTTP 500"`, not the present `error` field's value `""` — the
source guard `data.error || ...` tests truthiness, not presence. -/
theorem http_error_falsy_message_counterexample :
    request (fun _ => (none : Option SearchResponse)) 500 c5body =
      .httpError (.str "HTTP 500") 500 c5body
    ∧ c5body.lookup "error" = some (.str "")
    ∧ Json.str "HTTP 500" ≠ Json.str "" :=
  ⟨rfl, rfl, fun h => absurd (Json.str.inj h) (by decide)⟩

/-- Claim C5 (amended): every response with a status outside 200–299 and
a decoded body that is not JSON null raises, for any response schema and
hence strictly before schema validation, a single normalized error
carrying the status and decoded body, whose message is the body's `error`
field when that field is present and truthy (for a string field:
non-empty) and the generic `"HTTP <status>"` when the field is absent or
falsy; for a JSON-null body the non-success path instead crashes with an
unnormalized `TypeError` while reading `data.error`, still before any
schema validation. -/
theorem http_error_normalization :
    (∀ (T : Type) (parse : Json → Option T) (status : Nat) (body : Json),
        httpOk status = false → body ≠ Json.null →
        request parse status body =
          .httpError (errorMessage (body.lookup "error") status) status body)
    ∧ (∀ (T : Type) (parse : Json → Option T) (status : Nat),
        httpOk status = false →
        request parse status Json.null = .typeError)
    ∧ (∀ (status : Nat) (s : String),
        errorMessage (some (.str s)) status =
          (if s = "" then .str ("HTTP " ++ toString status) else .str s))
    ∧ (∀ (status : Nat),
        errorMessage none status = .str ("HTTP " ++ toString status)) := by
  refine ⟨?_, ?_, ?_, ?_⟩
  · intro T parse status body h hnull
    rw [request, if_neg (by rw [h]; exact Bool.false_ne_true),
      propertyAccess_of_ne_null body hnull]
  · intro T parse status h
    rw [request, if_neg (by rw [h]; exact Bool.false_ne_true)]
    rfl
  · intro status s
    simp only [errorMessage, Json.truthy]
    by_cases hs : s = "" <;> simp [hs]
  · intro status
    rfl

def w5body : Json := .obj [("error", .str "not found")]

/-- Witness for claim C5's theorem at a concrete 404 response with an
object body carrying a truthy `error` field, and at a JSON-null body. -/
theorem http_error_normalization_witness :
    request (fun _ => (none : Option SearchResponse)) 404 w5body =
      .httpError (errorMessage (w5body.lookup "error") 404) 404 w5body
    ∧ request (fun _ => (none : Option SearchResponse)) 404 Json.null =
        RequestOutcome.typeError
    ∧ errorMessage (some (.str "not found")) 404 =
        (if ("not found" : String) = "" then Json.str ("HTTP " ++ toString 404)
         else Json.str "not found") :=
  ⟨http_error_normalization.1 SearchResponse (fun _ => none) 404 w5body rfl
     (fun h => Json.noConfusion h),
   http_error_normalization.2.1 SearchResponse (fun _ => none) 404 rfl,
   http_error_normalization.2.2.1 404 "not found"⟩

/-! Claim C6: the client-side batch size limit. -/

/-- Claim C6: `batchInsert` raises its oversize error, before any request
is assembled or sent, exactly when the input holds more than 1000
entries; for at most 1000 entries the check does not raise and the
request is issued. -/
theorem batchInsert_size_limit (vectors : List VectorEntry) (nspace : Option String) :
    (1000 < vectors.length →
      batchInsertAction vectors nspace =
        .error "Batch insert supports max 1000 vectors per request")
    ∧ (vectors.length ≤ 1000 →
      batchInsertAction vectors nspace =
        .ok ⟨"POST", "/vectors/batch_insert", batchInsertPayload vectors nspace⟩) := by
  constructor
  · intro h
    simp [batchInsertAction, h]
  · intro h
    simp [batchInsertAction, Nat.not_lt.mpr h]

def w6entry : VectorEntry := ⟨1, [0], none⟩

/-- Witness for claim C6's theorem at inputs of 1001 and 1 entries. -/
theorem batchInsert_size_limit_witness :
    batchInsertAction (List.replicate 1001 w6entry) none =
      .error "Batch insert supports max 1000 vectors per request"
    ∧ batchInsertAction [w6entry] none =
        .ok ⟨"POST", "/vectors/batch_insert", batchInsertPayload [w6entry] none⟩ :=
  ⟨(batchInsert_size_limit _ _).1 (by rw [List.length_replicate]; norm_num),
   (batchInsert_size_limit _ _).2 (by decide)⟩

/-! Claim C7: abort on first failing chunk. -/

/-- Claim C7: if the batch-insert request for chunk `k` fails after every
earlier chunk succeeded, `batchInsertAll` issues requests only for the
chunks up to and including `k` (none after `k`) and propagates that
chunk's error unchanged — earlier chunks' accumulated results are neither
rolled back (the requests were issued) nor reported. -/
theorem batchInsertAll_abort_on_chunk_failure
    (E : Type) (server : Nat → List VectorEntry → Except E BatchInsertResult)
    (vectors : List VectorEntry) (k : Nat) (e : E)
    (hk : k < (chunks1000 vectors).length)
    (herr : server k ((chunks1000 vectors).getD k []) = .error e)
    (hok : ∀ j, j < k → ∃ r, server j ((chunks1000 vectors).getD j []) = .ok r) :
    batchInsertAll server vectors = ((chunks1000 vectors).take (k + 1), .error e) := by
  rw [batchInsertAll]
  exact batchInsertAllGo_fail server (chunks1000 vectors) k 0 [] 0 0 e hk
    (by simpa using herr) (fun j hj => by simpa using hok j hj)

def w7entry : VectorEntry := ⟨1, [0], none⟩

def w7response : BatchInsertResult := ⟨true, [1], 1, "default", 1, 0⟩

def w7server : Nat → List VectorEntry → Except String BatchInsertResult :=
  fun i _ => if i = 0 then .ok w7response else .error "HTTP 500"

/-- Witness for claim C7's theorem: 1002 entries make two chunks; the
first chunk succeeds, the second fails, and the run returns the second
chunk's error after issuing both requests. -/
theorem batchInsertAll_abort_on_chunk_failure_witness :
    batchInsertAll w7server (List.replicate 1002 w7entry) =
      ((chunks1000 (List.replicate 1002 w7entry)).take 2, .error "HTTP 500") := by
  have hch : chunks1000 (List.replicate 1002 w7entry) =
      [List.replicate 1000 w7entry, List.replicate 2 w7entry] := by
    rw [chunks1000, List.length_replicate]
    rw [show (1002 : Nat) = 1001 + 1 from rfl,
        sliceChunks_step _ _ (replicate_entry_ne_nil 1002 (by norm_num) w7entry),
        List.take_replicate, List.drop_replicate,
        show (1000 : Nat) ⊓ 1002 = 1000 from rfl,
        show (1002 : Nat) - 1000 = 2 from rfl]
    rw [show (1001 : Nat) = 1000 + 1 from rfl,
        sliceChunks_step _ _ (replicate_entry_ne_nil 2 (by norm_num) w7entry),
        List.take_replicate, List.drop_replicate,
        show (1000 : Nat) ⊓ 2 = 2 from rfl,
        show (2 : Nat) - 1000 = 0 from rfl,
        List.replicate_zero, sliceChunks_nil]
  exact batchInsertAll_abort_on_chunk_failure String w7server (List.replicate 1002 w7entry) 1
    "HTTP 500" (by rw [hch]; exact Nat.one_lt_two) rfl
    (fun j hj => ⟨w7response, by have hj0 : j = 0 := Nat.lt_one_iff.mp hj; subst hj0; rfl⟩)

/-! Claim C8: empty input. -/

/-- Claim C8: on the empty input `batchInsertAll` issues no requests and
immediately returns the zero-valued aggregate: empty `ids` and zero
`count`, `new_count`, `upserted_count`. -/
theorem batchInsertAll_empty_input (E : Type)
    (server : Nat → List VectorEntry → Except E BatchInsertResult) :
    batchInsertAll server [] = ([], Except.ok ⟨[], 0, 0, 0⟩) := rfl

/-! Claim C9: malformed response bodies. -/

def c9body : Json := .obj [("results", .arr [])]

/-- Claim C9: a success-status response whose body fails schema
validation yields the distinct response-shape outcome carrying the raw
body — never a parsed value; in particular a search response body missing
the required `count` field fails validation. -/
theorem malformed_response_distinct_error :
    (∀ (T : Type) (parse : Json → Option T) (status : Nat) (body : Json),
        httpOk status = true → parse body = none →
        request parse status body = .malformed body)
    ∧ parseSearchResponse c9body = none := by
  constructor
  · intro T parse status body hs hp
    simp [request, hs, hp]
  · rfl

/-- Witness for claim C9's theorem at a 200 response missing `count`. -/
theorem malformed_response_distinct_error_witness :
    request parseSearchResponse 200 c9body = .malformed c9body :=
  malformed_response_distinct_error.1 SearchResponse parseSearchResponse 200 c9body rfl
    malformed_response_distinct_error.2

/-! Claim C10: the defaulted search namespace. -/

def c10body : Json := .obj [("results", .arr []), ("count", .num 0)]

/-- Claim C10: a success-status search response body that validates but
lacks the `namespace` field is not rejected — validation fills the
namespace in with `"default"` and the result is returned to the
caller. -/
theorem search_namespace_defaulted :
    (∀ (j : Json) (r : SearchResponse),
        parseSearchResponse j = some r → j.lookup "namespace" = none →
        r.nspace = "default")
    ∧ parseSearchResponse c10body = some ⟨[], 0, "default"⟩
    ∧ request parseSearchResponse 200 c10body = .ok ⟨[], 0, "default"⟩ := by
  refine ⟨?_, rfl, rfl⟩
  intro j r h hns
  simp only [parseSearchResponse] at h
  split at h
  · split at h
    · rw [hns] at h
      simp only [Option.some.injEq] at h
      rw [← h]
    · exact absurd h (by simp)
  · exact absurd h (by simp)

/-- Witness for claim C10's theorem at a concrete namespace-free body. -/
theorem search_namespace_defaulted_witness :
    (⟨[], 0, "default"⟩ : SearchResponse).nspace = "default" :=
  search_namespace_defaulted.1 c10body ⟨[], 0, "default"⟩
    search_namespace_defaulted.2.1 rfl
